import Mathlib

/-!
Verification of the aio-coding-hub UI services against their specification.

The development shallowly embeds the TypeScript services that the checked
claims are about:

* `src/services/traceStore.ts` — the trace ring buffer (`TraceStore` below),
  together with the second copy of the same module found in the source drop
  (`TraceStoreB` below), whose `ingestTraceStart` additionally resets a trace
  that already carries a summary;
* the `gateway:circuit` handler of `listenGatewayEvents` and
  `computeOutputTokensPerSecond` from the gateway-events service;
* `validateDesiredForKeys` from the settings-persistence hook.

JavaScript numbers are modelled by `JSNum`: an exact rational for finite
values plus `NaN` and the two infinities; every comparison the embedded code
performs is guarded by `Number.isFinite`, so the rational model is exact on
the guarded paths.

The gateway's routing core (circuit breaker, session affinity, failover
orchestrator) is not part of the provided source — the UI only consumes its
event and settings contracts — so those components are modelled from the
specification text and marked as such in their doc comments.
-/

/-- A JavaScript number: a finite value (modelled exactly as a rational) or
one of the non-finite values `NaN`, `Infinity`, `-Infinity`. -/
inductive JSNum where
  | finite (q : ℚ)
  | nan
  | posInf
  | negInf
deriving DecidableEq, Repr

namespace JSNum

/-- `Number.isFinite`. -/
def isFinite : JSNum → Bool
  | finite _ => true
  | _ => false

/-- JavaScript `<` (false whenever an operand is `NaN`). -/
def lt : JSNum → JSNum → Bool
  | finite a, finite b => decide (a < b)
  | finite _, posInf => true
  | negInf, finite _ => true
  | negInf, posInf => true
  | _, _ => false

/-- JavaScript `<=` (false whenever an operand is `NaN`). -/
def le : JSNum → JSNum → Bool
  | finite a, finite b => decide (a ≤ b)
  | finite _, posInf => true
  | negInf, finite _ => true
  | negInf, posInf => true
  | negInf, negInf => true
  | posInf, posInf => true
  | _, _ => false

/-- JavaScript `>`. -/
def gt (a b : JSNum) : Bool := lt b a

/-- JavaScript subtraction (signed zeros are not distinguished; the embedded
code never observes the sign of a zero). -/
def sub : JSNum → JSNum → JSNum
  | finite a, finite b => finite (a - b)
  | nan, _ => nan
  | _, nan => nan
  | posInf, posInf => nan
  | negInf, negInf => nan
  | posInf, _ => posInf
  | negInf, _ => negInf
  | finite _, posInf => negInf
  | finite _, negInf => posInf

/-- JavaScript division (signed zeros are not distinguished; the embedded
code only ever divides by a strictly positive finite number). -/
def div : JSNum → JSNum → JSNum
  | nan, _ => nan
  | _, nan => nan
  | posInf, posInf => nan
  | posInf, negInf => nan
  | negInf, posInf => nan
  | negInf, negInf => nan
  | posInf, finite b => if b < 0 then negInf else posInf
  | negInf, finite b => if b < 0 then posInf else negInf
  | finite _, posInf => finite 0
  | finite _, negInf => finite 0
  | finite a, finite b =>
      if b = 0 then (if a = 0 then nan else if 0 < a then posInf else negInf)
      else finite (a / b)

end JSNum

/-- `GatewayAttempt` from the gateway-events service (one attempt summary
inside a `gateway:request` payload). -/
structure GatewayAttempt where
  provider_id : Int
  provider_name : String
  base_url : String
  outcome : String
  status : Option Int
deriving DecidableEq, Repr

/-- `GatewayRequestEvent` from the gateway-events service. -/
structure GatewayRequestEvent where
  trace_id : String
  cli_key : String
  method : String
  path : String
  query : Option String
  status : Option Int
  error_category : Option String
  error_code : Option String
  duration_ms : JSNum
  ttfb_ms : Option JSNum
  attempts : List GatewayAttempt
  input_tokens : Option JSNum
  output_tokens : Option JSNum
  total_tokens : Option JSNum
  cache_read_input_tokens : Option JSNum
  cache_creation_input_tokens : Option JSNum
  cache_creation_5m_input_tokens : Option JSNum
  cache_creation_1h_input_tokens : Option JSNum
deriving DecidableEq, Repr

/-- `GatewayRequestStartEvent` from the gateway-events service. -/
structure GatewayRequestStartEvent where
  trace_id : String
  cli_key : String
  method : String
  path : String
  query : Option String
  requested_model : Option String
  ts : Int
deriving DecidableEq, Repr

/-- `GatewayAttemptEvent` from the gateway-events service. -/
structure GatewayAttemptEvent where
  trace_id : String
  cli_key : String
  method : String
  path : String
  query : Option String
  attempt_index : Int
  provider_id : Int
  session_reuse : Option Bool
  provider_name : String
  base_url : String
  outcome : String
  status : Option Int
  attempt_started_ms : Int
  attempt_duration_ms : Int
  circuit_state_before : Option String
  circuit_state_after : Option String
  circuit_failure_count : Option Int
  circuit_failure_threshold : Option Int
deriving DecidableEq, Repr

/-- `TraceSession` from `traceStore.ts` (the type is textually identical in
both copies of the module). -/
structure TraceSession where
  trace_id : String
  cli_key : String
  method : String
  path : String
  query : Option String
  requested_model : Option String
  first_seen_ms : Int
  last_seen_ms : Int
  attempts : List GatewayAttemptEvent
  summary : Option GatewayRequestEvent
deriving DecidableEq, Repr

namespace TraceStore

/-- `MAX_TRACES` from `traceStore.ts`. -/
def MAX_TRACES : Nat := 50

/-- `MAX_ATTEMPTS_PER_TRACE` from `traceStore.ts`. -/
def MAX_ATTEMPTS_PER_TRACE : Nat := 100

/-- The module-level mutable state of `traceStore.ts`. -/
structure State where
  traces : List TraceSession
  selectedTraceId : Option String
  searchTraceId : String
deriving DecidableEq, Repr

/-- The initial module state of `traceStore.ts`. -/
def init : State := { traces := [], selectedTraceId := none, searchTraceId := "" }

/-- `upsertAttempt` from `traceStore.ts`: drop any entry with the payload's
`attempt_index`, append the payload, stable-sort by `attempt_index`
(JavaScript `Array.prototype.sort` is stable; `List.insertionSort` is the
stable sort used to embed it), and keep the last `MAX_ATTEMPTS_PER_TRACE`
entries (`slice(-MAX_ATTEMPTS_PER_TRACE)`). -/
def upsertAttempt (attempts : List GatewayAttemptEvent) (payload : GatewayAttemptEvent) :
    List GatewayAttemptEvent :=
  let next := attempts.filter (fun a => a.attempt_index != payload.attempt_index) ++ [payload]
  let sorted := List.insertionSort (fun a b => a.attempt_index ≤ b.attempt_index) next
  sorted.drop (sorted.length - MAX_ATTEMPTS_PER_TRACE)

/-- `selectFallbackIfNeeded` from `traceStore.ts`; takes the pre-update state
(for the current selection) and the already-updated trace list. -/
def selectFallbackIfNeeded (s : State) (nextTraces : List TraceSession) : Option String :=
  match s.selectedTraceId with
  | none => none
  | some sel =>
    if sel = "" then some sel
    else if nextTraces.any (fun t => t.trace_id == sel) then some sel
    else nextTraces.head?.map (fun t => t.trace_id)

/-- `moveTraceToFront` from `traceStore.ts`. -/
def moveTraceToFront (l : List TraceSession) (traceId : String) : List TraceSession :=
  match l.findIdx? (fun t => t.trace_id == traceId) with
  | none => l
  | some 0 => l
  | some (i + 1) =>
    match l[i + 1]? with
    | none => l
    | some trace => trace :: l.eraseIdx (i + 1)

/-- `ingestTraceStart` from `traceStore.ts`. The boolean records whether
`setState` ran (and hence whether the store's listeners were notified);
`now` is the value of `Date.now()` at the call. -/
def ingestTraceStartE (now : Int) (payload : Option GatewayRequestStartEvent) (s : State) :
    State × Bool :=
  match payload with
  | none => (s, false)
  | some p =>
    if p.trace_id = "" then (s, false)
    else
      match s.traces.findIdx? (fun t => t.trace_id == p.trace_id) with
      | none =>
        let created : TraceSession :=
          { trace_id := p.trace_id, cli_key := p.cli_key, method := p.method,
            path := p.path, query := p.query, requested_model := p.requested_model,
            first_seen_ms := now, last_seen_ms := now, attempts := [], summary := none }
        let nextTraces := (created :: s.traces).take MAX_TRACES
        ({ s with traces := nextTraces,
                  selectedTraceId := s.selectedTraceId.orElse (fun _ => some created.trace_id) },
         true)
      | some idx =>
        match s.traces[idx]? with
        | none => (s, false)
        | some existing =>
          let updated : TraceSession :=
            { existing with
              cli_key := p.cli_key, method := p.method, path := p.path, query := p.query,
              requested_model := p.requested_model.orElse (fun _ => existing.requested_model),
              last_seen_ms := now }
          let nextTraces := moveTraceToFront (s.traces.set idx updated) updated.trace_id
          ({ s with traces := nextTraces.take MAX_TRACES,
                    selectedTraceId := selectFallbackIfNeeded s nextTraces },
           true)

/-- `ingestTraceAttempt` from `traceStore.ts` (same conventions as
`ingestTraceStartE`). -/
def ingestTraceAttemptE (now : Int) (payload : Option GatewayAttemptEvent) (s : State) :
    State × Bool :=
  match payload with
  | none => (s, false)
  | some p =>
    if p.trace_id = "" then (s, false)
    else
      match s.traces.findIdx? (fun t => t.trace_id == p.trace_id) with
      | none =>
        let created : TraceSession :=
          { trace_id := p.trace_id, cli_key := p.cli_key, method := p.method,
            path := p.path, query := p.query, requested_model := none,
            first_seen_ms := now, last_seen_ms := now, attempts := [p], summary := none }
        let nextTraces := (created :: s.traces).take MAX_TRACES
        ({ s with traces := nextTraces,
                  selectedTraceId := s.selectedTraceId.orElse (fun _ => some created.trace_id) },
         true)
      | some idx =>
        match s.traces[idx]? with
        | none => (s, false)
        | some existing =>
          let updated : TraceSession :=
            { existing with
              cli_key := p.cli_key, method := p.method, path := p.path, query := p.query,
              last_seen_ms := now, attempts := upsertAttempt existing.attempts p }
          let nextTraces := moveTraceToFront (s.traces.set idx updated) updated.trace_id
          ({ s with traces := nextTraces.take MAX_TRACES,
                    selectedTraceId := selectFallbackIfNeeded s nextTraces },
           true)

/-- `ingestTraceRequest` from `traceStore.ts` (same conventions as
`ingestTraceStartE`). -/
def ingestTraceRequestE (now : Int) (payload : Option GatewayRequestEvent) (s : State) :
    State × Bool :=
  match payload with
  | none => (s, false)
  | some p =>
    if p.trace_id = "" then (s, false)
    else
      match s.traces.findIdx? (fun t => t.trace_id == p.trace_id) with
      | none =>
        let created : TraceSession :=
          { trace_id := p.trace_id, cli_key := p.cli_key, method := p.method,
            path := p.path, query := p.query, requested_model := none,
            first_seen_ms := now, last_seen_ms := now, attempts := [], summary := some p }
        let nextTraces := (created :: s.traces).take MAX_TRACES
        ({ s with traces := nextTraces,
                  selectedTraceId := s.selectedTraceId.orElse (fun _ => some created.trace_id) },
         true)
      | some idx =>
        match s.traces[idx]? with
        | none => (s, false)
        | some existing =>
          let updated : TraceSession :=
            { existing with
              cli_key := p.cli_key, method := p.method, path := p.path, query := p.query,
              last_seen_ms := now, summary := some p }
          let nextTraces := moveTraceToFront (s.traces.set idx updated) updated.trace_id
          ({ s with traces := nextTraces.take MAX_TRACES,
                    selectedTraceId := selectFallbackIfNeeded s nextTraces },
           true)

end TraceStore

/-- One ingest call into a trace store, tagged with the `Date.now()` value at
the time of the call; payloads are `Option`s because the handlers receive
possibly-null event payloads. -/
inductive TraceOp where
  | start (now : Int) (payload : Option GatewayRequestStartEvent)
  | attempt (now : Int) (payload : Option GatewayAttemptEvent)
  | request (now : Int) (payload : Option GatewayRequestEvent)
deriving DecidableEq

namespace TraceStore

/-- Apply one ingest call to the `traceStore.ts` state. -/
def applyOp (op : TraceOp) (s : State) : State :=
  match op with
  | .start now p => (ingestTraceStartE now p s).1
  | .attempt now p => (ingestTraceAttemptE now p s).1
  | .request now p => (ingestTraceRequestE now p s).1

/-- Run a sequence of ingest calls against the `traceStore.ts` state. -/
def run (ops : List TraceOp) (s : State) : State :=
  ops.foldl (fun s op => applyOp op s) s

end TraceStore

namespace TraceStoreB

/-- `MAX_TRACES` from the trace-store copy embedded in the unnamed source
part (`part_002`). -/
def MAX_TRACES : Nat := 50

/-- `MAX_ATTEMPTS_PER_TRACE` from the trace-store copy in `part_002`. -/
def MAX_ATTEMPTS_PER_TRACE : Nat := 100

/-- The module-level mutable state of the trace-store copy in `part_002`
(no selection or search state in this copy). -/
structure State where
  traces : List TraceSession
deriving DecidableEq, Repr

/-- The initial module state of the trace-store copy in `part_002`. -/
def init : State := { traces := [] }

/-- `upsertAttempt` from the trace-store copy in `part_002` (textually the
same function as in `traceStore.ts`). -/
def upsertAttempt (attempts : List GatewayAttemptEvent) (payload : GatewayAttemptEvent) :
    List GatewayAttemptEvent :=
  let next := attempts.filter (fun a => a.attempt_index != payload.attempt_index) ++ [payload]
  let sorted := List.insertionSort (fun a b => a.attempt_index ≤ b.attempt_index) next
  sorted.drop (sorted.length - MAX_ATTEMPTS_PER_TRACE)

/-- `moveTraceToFront` from the trace-store copy in `part_002`. -/
def moveTraceToFront (l : List TraceSession) (traceId : String) : List TraceSession :=
  match l.findIdx? (fun t => t.trace_id == traceId) with
  | none => l
  | some 0 => l
  | some (i + 1) =>
    match l[i + 1]? with
    | none => l
    | some trace => trace :: l.eraseIdx (i + 1)

/-- `ingestTraceStart` from the trace-store copy in `part_002`. Unlike the
`traceStore.ts` version, when the existing trace already has a summary
(`shouldReset`), the update also resets `first_seen_ms`, clears `attempts`,
and drops the summary. -/
def ingestTraceStartE (now : Int) (payload : Option GatewayRequestStartEvent) (s : State) :
    State × Bool :=
  match payload with
  | none => (s, false)
  | some p =>
    if p.trace_id = "" then (s, false)
    else
      match s.traces.findIdx? (fun t => t.trace_id == p.trace_id) with
      | none =>
        let created : TraceSession :=
          { trace_id := p.trace_id, cli_key := p.cli_key, method := p.method,
            path := p.path, query := p.query, requested_model := p.requested_model,
            first_seen_ms := now, last_seen_ms := now, attempts := [], summary := none }
        let nextTraces := (created :: s.traces).take MAX_TRACES
        ({ traces := nextTraces }, true)
      | some idx =>
        match s.traces[idx]? with
        | none => (s, false)
        | some existing =>
          let shouldReset := existing.summary.isSome
          let base : TraceSession :=
            { existing with
              cli_key := p.cli_key, method := p.method, path := p.path, query := p.query,
              requested_model := p.requested_model.orElse (fun _ => existing.requested_model),
              last_seen_ms := now }
          let updated : TraceSession :=
            if shouldReset then
              { base with first_seen_ms := now, attempts := [], summary := none }
            else base
          let nextTraces := moveTraceToFront (s.traces.set idx updated) updated.trace_id
          ({ traces := nextTraces.take MAX_TRACES }, true)

/-- `ingestTraceAttempt` from the trace-store copy in `part_002`. -/
def ingestTraceAttemptE (now : Int) (payload : Option GatewayAttemptEvent) (s : State) :
    State × Bool :=
  match payload with
  | none => (s, false)
  | some p =>
    if p.trace_id = "" then (s, false)
    else
      match s.traces.findIdx? (fun t => t.trace_id == p.trace_id) with
      | none =>
        let created : TraceSession :=
          { trace_id := p.trace_id, cli_key := p.cli_key, method := p.method,
            path := p.path, query := p.query, requested_model := none,
            first_seen_ms := now, last_seen_ms := now, attempts := [p], summary := none }
        let nextTraces := (created :: s.traces).take MAX_TRACES
        ({ traces := nextTraces }, true)
      | some idx =>
        match s.traces[idx]? with
        | none => (s, false)
        | some existing =>
          let updated : TraceSession :=
            { existing with
              cli_key := p.cli_key, method := p.method, path := p.path, query := p.query,
              last_seen_ms := now, attempts := upsertAttempt existing.attempts p }
          let nextTraces := moveTraceToFront (s.traces.set idx updated) updated.trace_id
          ({ traces := nextTraces.take MAX_TRACES }, true)

/-- `ingestTraceRequest` from the trace-store copy in `part_002`. -/
def ingestTraceRequestE (now : Int) (payload : Option GatewayRequestEvent) (s : State) :
    State × Bool :=
  match payload with
  | none => (s, false)
  | some p =>
    if p.trace_id = "" then (s, false)
    else
      match s.traces.findIdx? (fun t => t.trace_id == p.trace_id) with
      | none =>
        let created : TraceSession :=
          { trace_id := p.trace_id, cli_key := p.cli_key, method := p.method,
            path := p.path, query := p.query, requested_model := none,
            first_seen_ms := now, last_seen_ms := now, attempts := [], summary := some p }
        let nextTraces := (created :: s.traces).take MAX_TRACES
        ({ traces := nextTraces }, true)
      | some idx =>
        match s.traces[idx]? with
        | none => (s, false)
        | some existing =>
          let updated : TraceSession :=
            { existing with
              cli_key := p.cli_key, method := p.method, path := p.path, query := p.query,
              last_seen_ms := now, summary := some p }
          let nextTraces := moveTraceToFront (s.traces.set idx updated) updated.trace_id
          ({ traces := nextTraces.take MAX_TRACES }, true)

/-- Apply one ingest call to the `part_002` trace-store state. -/
def applyOp (op : TraceOp) (s : State) : State :=
  match op with
  | .start now p => (ingestTraceStartE now p s).1
  | .attempt now p => (ingestTraceAttemptE now p s).1
  | .request now p => (ingestTraceRequestE now p s).1

/-- Run a sequence of ingest calls against the `part_002` trace-store state. -/
def run (ops : List TraceOp) (s : State) : State :=
  ops.foldl (fun s op => applyOp op s) s

end TraceStoreB

/-- Whether a `request_start` payload hits an existing trace that already
carries a summary — the `shouldReset` situation in which the two trace-store
copies diverge (`part_002` resets the trace, `traceStore.ts` keeps it). -/
def startHitsSummarizedTrace (p : GatewayRequestStartEvent) (traces : List TraceSession) : Bool :=
  p.trace_id != "" &&
    (match traces.findIdx? (fun t => t.trace_id == p.trace_id) with
     | none => false
     | some i =>
       match traces[i]? with
       | none => false
       | some t => t.summary.isSome)

/-- Whether an ingest call is a `request_start` that triggers the
`shouldReset` branch of the `part_002` trace store. -/
def opResets (op : TraceOp) (traces : List TraceSession) : Bool :=
  match op with
  | .start _ (some p) => startHitsSummarizedTrace p traces
  | _ => false

/-- A concrete `gateway:request` payload for trace `"a"` (all optional data
absent), used to exhibit the divergence of the two trace-store copies. -/
def exampleRequestEvent : GatewayRequestEvent :=
  { trace_id := "a", cli_key := "", method := "", path := "", query := none,
    status := none, error_category := none, error_code := none,
    duration_ms := .finite 0, ttfb_ms := none, attempts := [],
    input_tokens := none, output_tokens := none, total_tokens := none,
    cache_read_input_tokens := none, cache_creation_input_tokens := none,
    cache_creation_5m_input_tokens := none, cache_creation_1h_input_tokens := none }

/-- A concrete `gateway:request_start` payload for trace `"a"`. -/
def exampleStartEvent : GatewayRequestStartEvent :=
  { trace_id := "a", cli_key := "", method := "", path := "", query := none,
    requested_model := none, ts := 0 }

/-- A concrete `gateway:attempt` payload for trace `"a"` with
`attempt_index` 0. -/
def exampleAttemptEvent : GatewayAttemptEvent :=
  { trace_id := "a", cli_key := "", method := "", path := "", query := none,
    attempt_index := 0, provider_id := 0, session_reuse := none, provider_name := "",
    base_url := "", outcome := "started", status := none, attempt_started_ms := 0,
    attempt_duration_ms := 0, circuit_state_before := none, circuit_state_after := none,
    circuit_failure_count := none, circuit_failure_threshold := none }

/-- The trace that ingesting `exampleAttemptEvent` at time 0 into the empty
store creates. -/
def exampleCreatedTrace : TraceSession :=
  { trace_id := "a", cli_key := "", method := "", path := "", query := none,
    requested_model := none, first_seen_ms := 0, last_seen_ms := 0,
    attempts := [exampleAttemptEvent], summary := none }

/-- The two-event sequence — a request summary for trace `"a"` followed by a
new `request_start` for the same trace — on which the two trace-store copies
compute different trace lists. -/
def divergingOps : List TraceOp :=
  [TraceOp.request 0 (some exampleRequestEvent), TraceOp.start 1 (some exampleStartEvent)]

/-- `GatewayCircuitEvent` from the gateway-events service. -/
structure GatewayCircuitEvent where
  trace_id : String
  cli_key : String
  provider_id : Int
  provider_name : String
  base_url : String
  prev_state : String
  next_state : String
  failure_count : Int
  failure_threshold : Int
  open_until : Option Int
  cooldown_until : Option Int
  reason : String
  ts : Int
deriving DecidableEq, Repr

/-- `normalizeCircuitState` from the gateway-events service: empty (falsy)
input normalizes to null, `"OPEN"` and `"CLOSED"` to themselves, anything
else to null. -/
def normalizeCircuitState (state : String) : Option String :=
  if state = "" then none
  else if state = "OPEN" ∨ state = "CLOSED" then some state
  else none

namespace CircuitLog

/-- `CIRCUIT_NON_TRANSITION_DEDUP_WINDOW_MS` from `listenGatewayEvents`. -/
def DEDUP_WINDOW_MS : Int := 3000

/-- The `circuitNonTransitionDedup` JavaScript `Map`, modelled as an
insertion-ordered association list: `Map.get` returns the value of the first
(unique) matching key, `Map.set` overwrites an existing key in place and
appends a fresh one, `Map.size` is the length, `Map.clear` empties it. -/
abbrev DedupMap := List (String × Int)

/-- JavaScript `Map.get`. -/
def mapGet (m : DedupMap) (k : String) : Option Int :=
  (m.find? (fun p => p.1 == k)).map (fun p => p.2)

/-- JavaScript `Map.set`. -/
def mapSet (m : DedupMap) (k : String) (v : Int) : DedupMap :=
  if m.any (fun p => p.1 == k) then m.map (fun p => if p.1 == k then (k, v) else p)
  else m ++ [(k, v)]

/-- The `isTransition` test of the `gateway:circuit` handler: both states
normalize to a non-null value and they differ. -/
def isTransition (p : GatewayCircuitEvent) : Bool :=
  (normalizeCircuitState p.prev_state).isSome && (normalizeCircuitState p.next_state).isSome &&
    (normalizeCircuitState p.prev_state != normalizeCircuitState p.next_state)

/-- The handler's `dedupKey`:
`[cli_key, provider_id, reason, prevNormalized ?? prev_state, nextNormalized ?? next_state].join(":")`
(`reason` and the raw states are strings in the payload type, so the `?? ""`
fallbacks reduce to the fields themselves). -/
def dedupKey (p : GatewayCircuitEvent) : String :=
  String.intercalate ":" [p.cli_key, toString p.provider_id, p.reason,
    (normalizeCircuitState p.prev_state).getD p.prev_state,
    (normalizeCircuitState p.next_state).getD p.next_state]

/-- The `gateway:circuit` handler installed by `listenGatewayEvents`,
restricted to its observable effect: the new dedup-map state and whether
`logToConsole` ran (i.e. whether a console entry was produced). `now` is
`Date.now()` at the event; a null payload is ignored. -/
def handleCircuit (now : Int) (payload : Option GatewayCircuitEvent) (m : DedupMap) :
    DedupMap × Bool :=
  match payload with
  | none => (m, false)
  | some p =>
    if isTransition p then (m, true)
    else
      let key := dedupKey p
      let last := mapGet m key
      if last.any (fun l => decide (now - l < DEDUP_WINDOW_MS)) then (m, false)
      else
        let m1 := mapSet m key now
        let m2 := if m1.length > 500 then ([] : DedupMap) else m1
        (m2, true)

/-- Process a timed sequence of circuit events through the handler, threading
the dedup map and recording, per event, whether a console entry was
produced. -/
def runCircuit : List (Int × GatewayCircuitEvent) → DedupMap → DedupMap × List Bool
  | [], m => (m, [])
  | (t, e) :: rest, m =>
    let r := handleCircuit t (some e) m
    let rr := runCircuit rest r.1
    (rr.1, r.2 :: rr.2)

/-- A non-transition (`SKIP_OPEN`-style) circuit event with the given CLI
key; its raw states are empty, so it never counts as a transition. -/
def skipEvent (cli : String) : GatewayCircuitEvent :=
  { trace_id := "", cli_key := cli, provider_id := 0, provider_name := "",
    base_url := "", prev_state := "", next_state := "", failure_count := 0,
    failure_threshold := 0, open_until := none, cooldown_until := none,
    reason := "SKIP_OPEN", ts := 0 }

/-- A genuine CLOSED-to-OPEN transition event. -/
def transitionEvent : GatewayCircuitEvent :=
  { trace_id := "", cli_key := "", provider_id := 0, provider_name := "",
    base_url := "", prev_state := "CLOSED", next_state := "OPEN", failure_count := 5,
    failure_threshold := 5, open_until := some 1000, cooldown_until := none,
    reason := "FAILURE_THRESHOLD_REACHED", ts := 0 }

/-- The `i`-th filler CLI key (`i+1` copies of `'a'`), giving 500 pairwise
distinct dedup keys that also differ from `skipEvent ""`'s key. -/
def cexFillerCli (i : Nat) : String := String.mk (List.replicate (i + 1) 'a')

/-- The 500 filler CLI keys. -/
def cexFillerClis : List String := (List.range 500).map cexFillerCli

/-- The event sequence refuting the unconditional 3-second dedup claim: a
skip event for one key at `t = 0`, then 500 skip events with fresh distinct
keys at `t = 1` (the 500th pushes the dedup map past 500 entries, clearing
it), then the same first key again at `t = 2` — less than 3000 ms after it
was first logged. -/
def cexEvents : List (Int × GatewayCircuitEvent) :=
  (0, skipEvent "") ::
    (cexFillerClis.map (fun c => ((1 : Int), skipEvent c)) ++ [((2 : Int), skipEvent "")])

end CircuitLog

/-- `computeOutputTokensPerSecond` from the gateway-events service. -/
def computeOutputTokensPerSecond (payload : GatewayRequestEvent) : Option JSNum :=
  let output := payload.output_tokens
  let durationMs := payload.duration_ms
  let ttfbMs := payload.ttfb_ms
  match output with
  | none => none
  | some output =>
    if !durationMs.isFinite || durationMs.le (.finite 0) then none
    else
      match ttfbMs with
      | none => none
      | some ttfbMs =>
        if !ttfbMs.isFinite then none
        else
          let generationMs := durationMs.sub ttfbMs
          if !generationMs.isFinite || generationMs.le (.finite 0) then none
          else some (output.div (generationMs.div (.finite 1000)))

/-- The keys of `PersistedSettings` from the settings-persistence hook. -/
inductive PersistKey where
  | preferred_port
  | auto_start
  | tray_enabled
  | log_retention_days
  | provider_cooldown_seconds
  | provider_base_url_ping_cache_ttl_seconds
  | upstream_first_byte_timeout_seconds
  | upstream_stream_idle_timeout_seconds
  | upstream_request_timeout_non_streaming_seconds
  | intercept_anthropic_warmup_requests
  | enable_thinking_signature_rectifier
  | enable_response_fixer
  | response_fixer_fix_encoding
  | response_fixer_fix_sse_format
  | response_fixer_fix_truncated_json
  | failover_max_attempts_per_provider
  | failover_max_providers_to_try
  | circuit_breaker_failure_threshold
  | circuit_breaker_open_duration_minutes
deriving DecidableEq, Repr

/-- `PersistedSettings` from the settings-persistence hook (numeric fields
are JavaScript numbers, so they may be non-finite). -/
structure PersistedSettings where
  preferred_port : JSNum
  auto_start : Bool
  tray_enabled : Bool
  log_retention_days : JSNum
  provider_cooldown_seconds : JSNum
  provider_base_url_ping_cache_ttl_seconds : JSNum
  upstream_first_byte_timeout_seconds : JSNum
  upstream_stream_idle_timeout_seconds : JSNum
  upstream_request_timeout_non_streaming_seconds : JSNum
  intercept_anthropic_warmup_requests : Bool
  enable_thinking_signature_rectifier : Bool
  enable_response_fixer : Bool
  response_fixer_fix_encoding : Bool
  response_fixer_fix_sse_format : Bool
  response_fixer_fix_truncated_json : Bool
  failover_max_attempts_per_provider : JSNum
  failover_max_providers_to_try : JSNum
  circuit_breaker_failure_threshold : JSNum
  circuit_breaker_open_duration_minutes : JSNum
deriving DecidableEq, Repr

/-- `validateDesiredForKeys` from the settings-persistence hook: each guarded
block `if (keys.includes(k)) { if (bad) return msg; }` is flattened to a
single `keys.contains k && bad` condition, preserving the early-return
chain. -/
def validateDesiredForKeys (desired : PersistedSettings) (keys : List PersistKey) :
    Option String :=
  if keys.contains .preferred_port &&
      (!desired.preferred_port.isFinite || desired.preferred_port.lt (.finite 1024) ||
        desired.preferred_port.gt (.finite 65535)) then
    some "端口号必须为 1024-65535"
  else if keys.contains .log_retention_days &&
      (!desired.log_retention_days.isFinite || desired.log_retention_days.lt (.finite 1) ||
        desired.log_retention_days.gt (.finite 3650)) then
    some "日志保留必须为 1-3650 天"
  else if keys.contains .provider_cooldown_seconds &&
      (!desired.provider_cooldown_seconds.isFinite ||
        desired.provider_cooldown_seconds.lt (.finite 0) ||
        desired.provider_cooldown_seconds.gt (.finite 3600)) then
    some "短熔断冷却必须为 0-3600 秒"
  else if keys.contains .provider_base_url_ping_cache_ttl_seconds &&
      (!desired.provider_base_url_ping_cache_ttl_seconds.isFinite ||
        desired.provider_base_url_ping_cache_ttl_seconds.lt (.finite 1) ||
        desired.provider_base_url_ping_cache_ttl_seconds.gt (.finite 3600)) then
    some "Ping 选择缓存 TTL 必须为 1-3600 秒"
  else if keys.contains .upstream_first_byte_timeout_seconds &&
      (!desired.upstream_first_byte_timeout_seconds.isFinite ||
        desired.upstream_first_byte_timeout_seconds.lt (.finite 0) ||
        desired.upstream_first_byte_timeout_seconds.gt (.finite 3600)) then
    some "上游首字节超时必须为 0-3600 秒"
  else if keys.contains .upstream_stream_idle_timeout_seconds &&
      (!desired.upstream_stream_idle_timeout_seconds.isFinite ||
        desired.upstream_stream_idle_timeout_seconds.lt (.finite 0) ||
        desired.upstream_stream_idle_timeout_seconds.gt (.finite 3600)) then
    some "上游流式空闲超时必须为 0-3600 秒"
  else if keys.contains .upstream_request_timeout_non_streaming_seconds &&
      (!desired.upstream_request_timeout_non_streaming_seconds.isFinite ||
        desired.upstream_request_timeout_non_streaming_seconds.lt (.finite 0) ||
        desired.upstream_request_timeout_non_streaming_seconds.gt (.finite 86400)) then
    some "上游非流式总超时必须为 0-86400 秒"
  else if keys.contains .circuit_breaker_failure_threshold &&
      (!desired.circuit_breaker_failure_threshold.isFinite ||
        desired.circuit_breaker_failure_threshold.lt (.finite 1) ||
        desired.circuit_breaker_failure_threshold.gt (.finite 50)) then
    some "熔断阈值必须为 1-50"
  else if keys.contains .circuit_breaker_open_duration_minutes &&
      (!desired.circuit_breaker_open_duration_minutes.isFinite ||
        desired.circuit_breaker_open_duration_minutes.lt (.finite 1) ||
        desired.circuit_breaker_open_duration_minutes.gt (.finite 1440)) then
    some "熔断时长必须为 1-1440 分钟"
  else none

/-- The validation condition exactly as claim C7 enumerates it (only the six
keys the claim lists): some listed key is in `keys` with a non-finite or
out-of-range desired value. -/
def claimListedViolation (desired : PersistedSettings) (keys : List PersistKey) : Bool :=
  (keys.contains .provider_cooldown_seconds &&
      (!desired.provider_cooldown_seconds.isFinite ||
        desired.provider_cooldown_seconds.lt (.finite 0) ||
        desired.provider_cooldown_seconds.gt (.finite 3600))) ||
  (keys.contains .upstream_first_byte_timeout_seconds &&
      (!desired.upstream_first_byte_timeout_seconds.isFinite ||
        desired.upstream_first_byte_timeout_seconds.lt (.finite 0) ||
        desired.upstream_first_byte_timeout_seconds.gt (.finite 3600))) ||
  (keys.contains .upstream_stream_idle_timeout_seconds &&
      (!desired.upstream_stream_idle_timeout_seconds.isFinite ||
        desired.upstream_stream_idle_timeout_seconds.lt (.finite 0) ||
        desired.upstream_stream_idle_timeout_seconds.gt (.finite 3600))) ||
  (keys.contains .upstream_request_timeout_non_streaming_seconds &&
      (!desired.upstream_request_timeout_non_streaming_seconds.isFinite ||
        desired.upstream_request_timeout_non_streaming_seconds.lt (.finite 0) ||
        desired.upstream_request_timeout_non_streaming_seconds.gt (.finite 86400))) ||
  (keys.contains .circuit_breaker_failure_threshold &&
      (!desired.circuit_breaker_failure_threshold.isFinite ||
        desired.circuit_breaker_failure_threshold.lt (.finite 1) ||
        desired.circuit_breaker_failure_threshold.gt (.finite 50))) ||
  (keys.contains .circuit_breaker_open_duration_minutes &&
      (!desired.circuit_breaker_open_duration_minutes.isFinite ||
        desired.circuit_breaker_open_duration_minutes.lt (.finite 1) ||
        desired.circuit_breaker_open_duration_minutes.gt (.finite 1440)))

/-- The full validation condition: some key checked by
`validateDesiredForKeys` — the claim's six plus `preferred_port`,
`log_retention_days` and `provider_base_url_ping_cache_ttl_seconds` — is in
`keys` with a non-finite or out-of-range desired value. -/
def outOfRangeViolation (desired : PersistedSettings) (keys : List PersistKey) : Bool :=
  (keys.contains .preferred_port &&
      (!desired.preferred_port.isFinite || desired.preferred_port.lt (.finite 1024) ||
        desired.preferred_port.gt (.finite 65535))) ||
  (keys.contains .log_retention_days &&
      (!desired.log_retention_days.isFinite || desired.log_retention_days.lt (.finite 1) ||
        desired.log_retention_days.gt (.finite 3650))) ||
  (keys.contains .provider_base_url_ping_cache_ttl_seconds &&
      (!desired.provider_base_url_ping_cache_ttl_seconds.isFinite ||
        desired.provider_base_url_ping_cache_ttl_seconds.lt (.finite 1) ||
        desired.provider_base_url_ping_cache_ttl_seconds.gt (.finite 3600))) ||
  claimListedViolation desired keys

/-- Settings equal to `DEFAULT_SETTINGS` except for an out-of-range
`preferred_port` of 70000. -/
def portOutOfRangeSettings : PersistedSettings :=
  { preferred_port := .finite 70000, auto_start := false, tray_enabled := true,
    log_retention_days := .finite 30, provider_cooldown_seconds := .finite 30,
    provider_base_url_ping_cache_ttl_seconds := .finite 60,
    upstream_first_byte_timeout_seconds := .finite 0,
    upstream_stream_idle_timeout_seconds := .finite 0,
    upstream_request_timeout_non_streaming_seconds := .finite 0,
    intercept_anthropic_warmup_requests := false,
    enable_thinking_signature_rectifier := false, enable_response_fixer := false,
    response_fixer_fix_encoding := true, response_fixer_fix_sse_format := true,
    response_fixer_fix_truncated_json := true,
    failover_max_attempts_per_provider := .finite 5,
    failover_max_providers_to_try := .finite 5,
    circuit_breaker_failure_threshold := .finite 5,
    circuit_breaker_open_duration_minutes := .finite 30 }

namespace Gateway

/-- Modelled from the spec: the circuit-breaker states (§4.3). The gateway's
routing core is not part of the provided source; this section models it from
the specification text. -/
inductive CBStateKind where
  | CLOSED
  | OPEN
deriving DecidableEq, Repr

/-- Modelled from the spec: per-(cli_key, provider_id) circuit-breaker state
(§3 CircuitState). -/
structure CircuitState where
  state : CBStateKind
  failure_count : Nat
  open_until : Option Int
  cooldown_until : Option Int
deriving DecidableEq, Repr

/-- Modelled from the spec: the circuit-breaker tunables (§3 AppSettings,
§4.3). -/
structure CBConfig where
  failure_threshold : Nat
  provider_cooldown_seconds : Int
  circuit_open_duration : Int
deriving DecidableEq, Repr

/-- Modelled from the spec: the initial CLOSED circuit state (§4.3). -/
def initialCircuit : CircuitState :=
  { state := .CLOSED, failure_count := 0, open_until := none, cooldown_until := none }

/-- Modelled from the spec: the outcomes the failover orchestrator reports to
the circuit breaker (§4.3, §4.4): a failed attempt at time `now`, a
successful attempt, or the manual "reset circuit" operation. -/
inductive CBEvent where
  | failure (now : Int)
  | success
  | manualReset
deriving DecidableEq, Repr

/-- Modelled from the spec: the circuit-breaker transition function (§4.3).
A failure increments `failure_count` and arms the short cooldown
(`cooldown_until = now + provider_cooldown_seconds`); when the count reaches
`failure_threshold` the circuit opens with `open_until = now +
circuit_open_duration` (an already-open circuit re-opens, extending
`open_until`). Any success resets the count to 0 and closes the circuit
(defensive reset); the manual reset forces `CLOSED`, count 0 and a null
`open_until`. -/
def reportOutcome (cfg : CBConfig) (ev : CBEvent) (st : CircuitState) : CircuitState :=
  match ev with
  | .success =>
    { state := .CLOSED, failure_count := 0, open_until := none,
      cooldown_until := st.cooldown_until }
  | .manualReset =>
    { state := .CLOSED, failure_count := 0, open_until := none,
      cooldown_until := st.cooldown_until }
  | .failure now =>
    let count := st.failure_count + 1
    if cfg.failure_threshold ≤ count then
      { state := .OPEN, failure_count := count,
        open_until := some (now + cfg.circuit_open_duration),
        cooldown_until := some (now + cfg.provider_cooldown_seconds) }
    else
      { state := .CLOSED, failure_count := count, open_until := st.open_until,
        cooldown_until := some (now + cfg.provider_cooldown_seconds) }

/-- Modelled from the spec: whether a provider is currently selectable
(§4.3): it is skipped (`SKIP_OPEN`) while `OPEN` with `now < open_until`,
and (`SKIP_COOLDOWN`) while `now < cooldown_until`. -/
def selectable (now : Int) (st : CircuitState) : Bool :=
  (match st.state, st.open_until with
   | .OPEN, some u => decide (u ≤ now)
   | .OPEN, none => true
   | .CLOSED, _ => true) &&
  (match st.cooldown_until with
   | some c => decide (c ≤ now)
   | none => true)

/-- Modelled from the spec: one session-affinity cache entry (§3
SessionAffinityEntry). -/
structure AffinityEntry where
  provider_id : Nat
  expires_at : Int
deriving DecidableEq, Repr

/-- Modelled from the spec: the session-affinity cache (§4.2), keyed by
(cli_key, session_id). -/
abbrev AffinityMap := List ((String × String) × AffinityEntry)

/-- Modelled from the spec: `record_success` (§4.2) inserts or overwrites
the entry for the session with `expires_at = now + TTL`. -/
def recordSuccess (m : AffinityMap) (now : Int) (cli sid : String) (pid : Nat)
    (ttl : Int) : AffinityMap :=
  ((cli, sid), { provider_id := pid, expires_at := now + ttl }) ::
    m.filter (fun e => e.1 != (cli, sid))

/-- Modelled from the spec: `lookup` (§4.2) returns the cached provider only
while `now < expires_at`; anything else is a miss. -/
def affinityLookup (m : AffinityMap) (now : Int) (cli sid : String) : Option Nat :=
  match m.find? (fun e => e.1 == (cli, sid)) with
  | some e => if now < e.2.expires_at then some e.2.provider_id else none
  | none => none

/-- Modelled from the spec: trial-order construction (§4.4 steps 1–2): if
the session-affinity hit is currently selectable it is tried first, out of
normal order, followed by the remaining providers in sort-mode order;
otherwise the normal sort-mode order applies. -/
def buildTrialOrder (now : Int) (cbOf : Nat → CircuitState) (affinityHit : Option Nat)
    (sortOrder : List Nat) : List Nat :=
  match affinityHit with
  | some pid =>
    if selectable now (cbOf pid) then pid :: sortOrder.filter (fun q => q != pid)
    else sortOrder
  | none => sortOrder

/-- Modelled from the spec: the request-level outcome of the failover loop
(§4.4 step 6, §7). -/
inductive RequestOutcome where
  | success (provider_id : Nat)
  | allProvidersUnavailable
deriving DecidableEq, Repr

/-- Modelled from the spec: the failover loop (§4.4): attempt each provider
of the trial order in turn; every attempt's outcome is reported to the
circuit breaker (a failure increments that provider's failure count), the
first success ends the request (resetting that provider's count), and
exhausting the order terminates with `AllProvidersUnavailable`.
`attemptSucceeds` abstracts the upstream call; `counts` is the
per-provider failure count for one fixed CLI. -/
def runFailover (attemptSucceeds : Nat → Bool) (order : List Nat) (counts : Nat → Nat) :
    RequestOutcome × (Nat → Nat) :=
  match order with
  | [] => (.allProvidersUnavailable, counts)
  | p :: rest =>
    if attemptSucceeds p then (.success p, fun q => if q = p then 0 else counts q)
    else runFailover attemptSucceeds rest (fun q => if q = p then counts q + 1 else counts q)

end Gateway

namespace TraceStore

/-- Well-formedness of one trace's attempt list: bounded by the ring-buffer
cap and strictly increasing in `attempt_index`. -/
def AttemptsOk (l : List GatewayAttemptEvent) : Prop :=
  l.length ≤ MAX_ATTEMPTS_PER_TRACE ∧
  l.Pairwise (fun a b => a.attempt_index < b.attempt_index)

/-- The store-wide invariant: at most `MAX_TRACES` traces, each with a
well-formed attempt list. -/
def Inv (s : State) : Prop :=
  s.traces.length ≤ MAX_TRACES ∧ ∀ t ∈ s.traces, AttemptsOk t.attempts

theorem attemptsOk_nil : AttemptsOk [] := by
  constructor
  · simp [MAX_ATTEMPTS_PER_TRACE]
  · exact List.Pairwise.nil

theorem attemptsOk_singleton (p : GatewayAttemptEvent) : AttemptsOk [p] := by
  constructor
  · simp [MAX_ATTEMPTS_PER_TRACE]
  · simp

theorem attemptsOk_upsertAttempt (l : List GatewayAttemptEvent) (p : GatewayAttemptEvent)
    (h : l.Pairwise (fun a b => a.attempt_index < b.attempt_index)) :
    AttemptsOk (upsertAttempt l p) := by
  have hne :
      (l.filter (fun a => a.attempt_index != p.attempt_index) ++ [p]).Pairwise
        (fun a b => a.attempt_index ≠ b.attempt_index) := by
    rw [List.pairwise_append]
    refine ⟨(h.filter _).imp (fun hab => ne_of_lt hab), by simp, ?_⟩
    intro a ha b hb
    rcases List.mem_singleton.mp hb with rfl
    have := List.of_mem_filter ha
    simpa using this
  have hperm :=
    List.perm_insertionSort (fun a b => a.attempt_index ≤ b.attempt_index)
      (l.filter (fun a => a.attempt_index != p.attempt_index) ++ [p])
  have hsortedNe :
      (List.insertionSort (fun a b => a.attempt_index ≤ b.attempt_index)
        (l.filter (fun a => a.attempt_index != p.attempt_index) ++ [p])).Pairwise
        (fun a b => a.attempt_index ≠ b.attempt_index) :=
    (hperm.pairwise_iff (fun hab => hab.symm)).mpr hne
  have hsortedLe :
      (List.insertionSort (fun a b => a.attempt_index ≤ b.attempt_index)
        (l.filter (fun a => a.attempt_index != p.attempt_index) ++ [p])).Pairwise
        (fun a b => a.attempt_index ≤ b.attempt_index) := by
    haveI : IsTotal GatewayAttemptEvent (fun a b => a.attempt_index ≤ b.attempt_index) :=
      ⟨fun a b => le_total a.attempt_index b.attempt_index⟩
    haveI : IsTrans GatewayAttemptEvent (fun a b => a.attempt_index ≤ b.attempt_index) :=
      ⟨fun _ _ _ hab hbc => le_trans hab hbc⟩
    exact List.sorted_insertionSort _ _
  have hlt := (hsortedLe.and hsortedNe).imp
    (fun hab => lt_of_le_of_ne hab.1 hab.2)
  constructor
  · simp only [upsertAttempt, List.length_drop]
    omega
  · exact hlt.sublist (List.drop_sublist _ _)

theorem mem_moveTraceToFront {l : List TraceSession} {tid : String} {a : TraceSession}
    (h : a ∈ moveTraceToFront l tid) : a ∈ l := by
  unfold moveTraceToFront at h
  split at h
  · exact h
  · exact h
  · rename_i i _
    split at h
    · exact h
    · rename_i trace hget
      rcases List.mem_cons.mp h with rfl | h2
      · obtain ⟨hlt, hEq⟩ := List.getElem?_eq_some_iff.mp hget
        exact hEq ▸ List.getElem_mem hlt
      · exact (List.eraseIdx_sublist l (i + 1)).mem h2

theorem invTraces_insert (ts : List TraceSession) (created : TraceSession)
    (hts : ∀ t ∈ ts, AttemptsOk t.attempts) (hc : AttemptsOk created.attempts) :
    ((created :: ts).take MAX_TRACES).length ≤ MAX_TRACES ∧
      ∀ t ∈ (created :: ts).take MAX_TRACES, AttemptsOk t.attempts := by
  constructor
  · simp [List.length_take]
  · intro t ht
    have := (List.take_sublist MAX_TRACES (created :: ts)).mem ht
    rcases List.mem_cons.mp this with rfl | hmem
    · exact hc
    · exact hts t hmem

theorem invTraces_update (ts : List TraceSession) (idx : Nat) (updated : TraceSession)
    (hts : ∀ t ∈ ts, AttemptsOk t.attempts) (hu : AttemptsOk updated.attempts) :
    ((moveTraceToFront (ts.set idx updated) updated.trace_id).take MAX_TRACES).length
        ≤ MAX_TRACES ∧
      ∀ t ∈ (moveTraceToFront (ts.set idx updated) updated.trace_id).take MAX_TRACES,
        AttemptsOk t.attempts := by
  constructor
  · simp [List.length_take]
  · intro t ht
    have h1 := (List.take_sublist MAX_TRACES _).mem ht
    have h2 := mem_moveTraceToFront h1
    rcases List.mem_or_eq_of_mem_set h2 with hmem | rfl
    · exact hts t hmem
    · exact hu

theorem inv_applyOp (op : TraceOp) (s : State) (h : Inv s) : Inv (applyOp op s) := by
  obtain ⟨hlen, hts⟩ := h
  cases op with
  | start now p =>
    simp only [applyOp, ingestTraceStartE]
    cases p with
    | none => exact ⟨hlen, hts⟩
    | some p =>
      simp only
      split
      · exact ⟨hlen, hts⟩
      · split
        · exact invTraces_insert s.traces _ hts attemptsOk_nil
        · rename_i idx _
          split
          · exact ⟨hlen, hts⟩
          · rename_i existing hget
            refine invTraces_update s.traces idx _ hts ?_
            obtain ⟨hlt, hEq⟩ := List.getElem?_eq_some_iff.mp hget
            have hex : AttemptsOk existing.attempts := by
              have := hts _ (List.getElem_mem hlt)
              rwa [hEq] at this
            exact hex
  | attempt now p =>
    simp only [applyOp, ingestTraceAttemptE]
    cases p with
    | none => exact ⟨hlen, hts⟩
    | some p =>
      simp only
      split
      · exact ⟨hlen, hts⟩
      · split
        · exact invTraces_insert s.traces _ hts (attemptsOk_singleton p)
        · rename_i idx _
          split
          · exact ⟨hlen, hts⟩
          · rename_i existing hget
            refine invTraces_update s.traces idx _ hts ?_
            obtain ⟨hlt, hEq⟩ := List.getElem?_eq_some_iff.mp hget
            have hex : AttemptsOk existing.attempts := by
              have := hts _ (List.getElem_mem hlt)
              rwa [hEq] at this
            exact attemptsOk_upsertAttempt existing.attempts p hex.2
  | request now p =>
    simp only [applyOp, ingestTraceRequestE]
    cases p with
    | none => exact ⟨hlen, hts⟩
    | some p =>
      simp only
      split
      · exact ⟨hlen, hts⟩
      · split
        · exact invTraces_insert s.traces _ hts attemptsOk_nil
        · rename_i idx _
          split
          · exact ⟨hlen, hts⟩
          · rename_i existing hget
            refine invTraces_update s.traces idx _ hts ?_
            obtain ⟨hlt, hEq⟩ := List.getElem?_eq_some_iff.mp hget
            have hex : AttemptsOk existing.attempts := by
              have := hts _ (List.getElem_mem hlt)
              rwa [hEq] at this
            exact hex

theorem inv_run (ops : List TraceOp) (s : State) (h : Inv s) : Inv (run ops s) := by
  induction ops generalizing s with
  | nil => exact h
  | cons op rest ih => exact ih (applyOp op s) (inv_applyOp op s h)

theorem inv_init : Inv init := by
  constructor
  · simp [init, MAX_TRACES]
  · intro t ht
    simp [init] at ht

end TraceStore

theorem upsertAttempt_eq : TraceStoreB.upsertAttempt = TraceStore.upsertAttempt := rfl

theorem moveTraceToFront_eq : TraceStoreB.moveTraceToFront = TraceStore.moveTraceToFront := rfl

/-- C5: starting from the empty trace store, after any sequence of
`ingestTraceStart`, `ingestTraceAttempt` and `ingestTraceRequest` calls, the
store holds at most 50 traces and every trace's attempts list holds at most
100 entries. -/
theorem trace_store_ring_buffer_caps (ops : List TraceOp) :
    (TraceStore.run ops TraceStore.init).traces.length ≤ 50 ∧
      ∀ t ∈ (TraceStore.run ops TraceStore.init).traces, t.attempts.length ≤ 100 := by
  have h := TraceStore.inv_run ops TraceStore.init TraceStore.inv_init
  exact ⟨h.1, fun t ht => (h.2 t ht).1⟩

/-- C6: after every `ingestTraceAttempt` call — applied to any store state
reachable from the empty store — every trace's attempts list, in particular
the affected trace's, is strictly increasing in `attempt_index`: sorted with
at most one entry per index, regardless of the order in which attempt events
arrived. -/
theorem trace_attempts_strictly_increasing (ops : List TraceOp) (now : Int)
    (p : Option GatewayAttemptEvent) :
    ∀ t ∈ ((TraceStore.ingestTraceAttemptE now p (TraceStore.run ops TraceStore.init)).1).traces,
      t.attempts.Pairwise (fun a b => a.attempt_index < b.attempt_index) := by
  have h := TraceStore.inv_applyOp (.attempt now p) (TraceStore.run ops TraceStore.init)
    (TraceStore.inv_run ops TraceStore.init TraceStore.inv_init)
  exact fun t ht => (h.2 t ht).2

theorem trace_attempts_strictly_increasing_witness :
    exampleCreatedTrace.attempts.Pairwise
      (fun a b => a.attempt_index < b.attempt_index) :=
  trace_attempts_strictly_increasing [] 0 (some exampleAttemptEvent)
    exampleCreatedTrace (by decide)

/-- C9: a null payload, or one whose `trace_id` is empty, leaves each of
`ingestTraceStart`, `ingestTraceAttempt` and `ingestTraceRequest` without
effect: the state is unchanged and `setState` never runs, so no listener is
notified. -/
theorem trace_ingest_rejects_null_and_empty (s : TraceStore.State) (now : Int)
    (pS : Option GatewayRequestStartEvent) (pA : Option GatewayAttemptEvent)
    (pR : Option GatewayRequestEvent)
    (hS : ∀ e, pS = some e → e.trace_id = "")
    (hA : ∀ e, pA = some e → e.trace_id = "")
    (hR : ∀ e, pR = some e → e.trace_id = "") :
    TraceStore.ingestTraceStartE now pS s = (s, false) ∧
      TraceStore.ingestTraceAttemptE now pA s = (s, false) ∧
      TraceStore.ingestTraceRequestE now pR s = (s, false) := by
  refine ⟨?_, ?_, ?_⟩
  · cases pS with
    | none => rfl
    | some e => simp [TraceStore.ingestTraceStartE, hS e rfl]
  · cases pA with
    | none => rfl
    | some e => simp [TraceStore.ingestTraceAttemptE, hA e rfl]
  · cases pR with
    | none => rfl
    | some e => simp [TraceStore.ingestTraceRequestE, hR e rfl]

theorem trace_ingest_rejects_null_and_empty_witness :
    TraceStore.ingestTraceStartE 0 none TraceStore.init = (TraceStore.init, false) ∧
      TraceStore.ingestTraceAttemptE 0 none TraceStore.init = (TraceStore.init, false) ∧
      TraceStore.ingestTraceRequestE 0 none TraceStore.init = (TraceStore.init, false) :=
  trace_ingest_rejects_null_and_empty TraceStore.init 0 none none none
    (fun _ h => nomatch h) (fun _ h => nomatch h) (fun _ h => nomatch h)

/-- C8 counterexample: on the concrete sequence `divergingOps` — a request
summary for trace `"a"` followed by a new `request_start` for the same trace
— the two trace-store copies compute different trace lists (`traceStore.ts`
keeps the summary and `first_seen_ms`; `part_002` resets the trace), so the
claim that they agree on every event sequence is false. -/
theorem trace_store_copies_differ :
    (TraceStore.run divergingOps TraceStore.init).traces ≠
      (TraceStoreB.run divergingOps TraceStoreB.init).traces := by
  decide

/-- C8 (amended): from states with equal trace lists, each ingest call
computes the same trace list in both trace-store copies, provided a
`request_start` call does not hit an existing trace that already has a
summary; in that remaining case `part_002` resets `first_seen_ms`,
`attempts` and `summary` while `traceStore.ts` keeps them. -/
theorem trace_store_copies_agree_unless_reset (sA : TraceStore.State) (sB : TraceStoreB.State)
    (op : TraceOp) (h : sA.traces = sB.traces) (hr : opResets op sB.traces = false) :
    (TraceStore.applyOp op sA).traces = (TraceStoreB.applyOp op sB).traces := by
  obtain ⟨tA, sel, search⟩ := sA
  obtain ⟨tB⟩ := sB
  simp only at h
  subst h
  cases op with
  | start now p =>
    cases p with
    | none => rfl
    | some p =>
      simp only [TraceStore.applyOp, TraceStoreB.applyOp, TraceStore.ingestTraceStartE,
        TraceStoreB.ingestTraceStartE]
      by_cases htid : p.trace_id = ""
      · simp [htid]
      · simp only [if_neg htid]
        rcases hfi : tA.findIdx? (fun t => t.trace_id == p.trace_id) with _ | idx
        · simp [hfi, TraceStore.MAX_TRACES, TraceStoreB.MAX_TRACES]
        · simp only [hfi]
          rcases hget : tA[idx]? with _ | existing
          · simp [hget]
          · simp only [hget]
            have hsum : existing.summary.isSome = false := by
              simp only [opResets, startHitsSummarizedTrace, hfi, hget] at hr
              simpa [htid] using hr
            simp [hsum, moveTraceToFront_eq, TraceStore.MAX_TRACES, TraceStoreB.MAX_TRACES]
  | attempt now p =>
    cases p with
    | none => rfl
    | some p =>
      simp only [TraceStore.applyOp, TraceStoreB.applyOp, TraceStore.ingestTraceAttemptE,
        TraceStoreB.ingestTraceAttemptE]
      by_cases htid : p.trace_id = ""
      · simp [htid]
      · simp only [if_neg htid]
        rcases hfi : tA.findIdx? (fun t => t.trace_id == p.trace_id) with _ | idx
        · simp [hfi, TraceStore.MAX_TRACES, TraceStoreB.MAX_TRACES]
        · simp only [hfi]
          rcases hget : tA[idx]? with _ | existing
          · simp [hget]
          · simp [hget, moveTraceToFront_eq, upsertAttempt_eq,
              TraceStore.MAX_TRACES, TraceStoreB.MAX_TRACES]
  | request now p =>
    cases p with
    | none => rfl
    | some p =>
      simp only [TraceStore.applyOp, TraceStoreB.applyOp, TraceStore.ingestTraceRequestE,
        TraceStoreB.ingestTraceRequestE]
      by_cases htid : p.trace_id = ""
      · simp [htid]
      · simp only [if_neg htid]
        rcases hfi : tA.findIdx? (fun t => t.trace_id == p.trace_id) with _ | idx
        · simp [hfi, TraceStore.MAX_TRACES, TraceStoreB.MAX_TRACES]
        · simp only [hfi]
          rcases hget : tA[idx]? with _ | existing
          · simp [hget]
          · simp [hget, moveTraceToFront_eq,
              TraceStore.MAX_TRACES, TraceStoreB.MAX_TRACES]

theorem trace_store_copies_agree_unless_reset_witness :
    (TraceStore.applyOp (TraceOp.start 0 (some exampleStartEvent)) TraceStore.init).traces =
      (TraceStoreB.applyOp (TraceOp.start 0 (some exampleStartEvent)) TraceStoreB.init).traces :=
  trace_store_copies_agree_unless_reset TraceStore.init TraceStoreB.init
    (TraceOp.start 0 (some exampleStartEvent)) rfl (by decide)

namespace CircuitLog

theorem isTransition_skipEvent (c : String) : isTransition (skipEvent c) = false := by
  simp [isTransition, skipEvent, normalizeCircuitState]

theorem dedupKey_skipEvent (c : String) :
    dedupKey (skipEvent c) = c ++ ":0:SKIP_OPEN::" := by
  apply String.ext
  simp only [dedupKey, skipEvent, normalizeCircuitState, String.intercalate,
    String.intercalate.go, String.data_append, show toString (0 : Int) = "0" from rfl]
  simp [String.data_append]

theorem mapGet_eq_none_iff (m : DedupMap) (k : String) :
    mapGet m k = none ↔ ∀ x ∈ m, ¬(x.1 == k) = true := by
  simp [mapGet, List.find?_eq_none]

theorem find?_of_mapGet_none {m : DedupMap} {k : String} (h : mapGet m k = none) :
    m.find? (fun p => p.1 == k) = none := by
  rcases hf : m.find? (fun p => p.1 == k) with _ | x
  · exact hf
  · rw [mapGet, hf] at h
    simp at h

theorem mapGet_append_none {m l : DedupMap} {k : String}
    (h1 : mapGet m k = none) (h2 : mapGet l k = none) : mapGet (m ++ l) k = none := by
  rw [mapGet, List.find?_append, find?_of_mapGet_none h1, find?_of_mapGet_none h2]
  rfl

theorem mapSet_fresh (m : DedupMap) (k : String) (v : Int) (h : mapGet m k = none) :
    mapSet m k v = m ++ [(k, v)] := by
  have hall := (mapGet_eq_none_iff m k).mp h
  have hany : m.any (fun p => p.1 == k) = false := List.any_eq_false.mpr hall
  simp [mapSet, hany]

theorem handleCircuit_fresh (now : Int) (e : GatewayCircuitEvent) (m : DedupMap)
    (hnt : isTransition e = false) (hfresh : mapGet m (dedupKey e) = none)
    (hlen : m.length + 1 ≤ 500) :
    handleCircuit now (some e) m = (m ++ [(dedupKey e, now)], true) := by
  have hcond : ¬(500 < m.length + 1) := by omega
  simp [handleCircuit, hnt, hfresh, mapSet_fresh m _ now hfresh, Option.any, hcond]

theorem handleCircuit_fresh_clear (now : Int) (e : GatewayCircuitEvent) (m : DedupMap)
    (hnt : isTransition e = false) (hfresh : mapGet m (dedupKey e) = none)
    (hlen : 500 ≤ m.length) :
    handleCircuit now (some e) m = ([], true) := by
  have hcond : 500 < m.length + 1 := by omega
  simp [handleCircuit, hnt, hfresh, mapSet_fresh m _ now hfresh, Option.any, hcond]

theorem runCircuit_append (xs ys : List (Int × GatewayCircuitEvent)) (m : DedupMap) :
    runCircuit (xs ++ ys) m =
      ((runCircuit ys (runCircuit xs m).1).1,
        (runCircuit xs m).2 ++ (runCircuit ys (runCircuit xs m).1).2) := by
  induction xs generalizing m with
  | nil => simp [runCircuit]
  | cons x xs ih =>
    obtain ⟨t, e⟩ := x
    simp only [List.cons_append, runCircuit, List.append_eq]
    rw [ih]

theorem mapGet_singleton_ne {k k' : String} {v : Int} (h : k' ≠ k) :
    mapGet [(k, v)] k' = none := by
  rw [mapGet_eq_none_iff]
  intro x hx
  rcases List.mem_singleton.mp hx with rfl
  simp only [Bool.not_eq_true, beq_eq_false_iff_ne]
  exact fun hEq => h hEq.symm

theorem runCircuit_append_eq (xs ys : List (Int × GatewayCircuitEvent)) (m m1 m2 : DedupMap)
    (f1 f2 : List Bool) (h1 : runCircuit xs m = (m1, f1)) (h2 : runCircuit ys m1 = (m2, f2)) :
    runCircuit (xs ++ ys) m = (m2, f1 ++ f2) := by
  rw [runCircuit_append, h1]
  simp [h2]

theorem runCircuit_cons_eq (t : Int) (e : GatewayCircuitEvent)
    (rest : List (Int × GatewayCircuitEvent)) (m m1 m2 : DedupMap) (b : Bool) (f : List Bool)
    (h1 : handleCircuit t (some e) m = (m1, b)) (h2 : runCircuit rest m1 = (m2, f)) :
    runCircuit ((t, e) :: rest) m = (m2, b :: f) := by
  simp [runCircuit, h1, h2]

theorem runCircuit_fresh_skips (cs : List String) (t : Int) (m : DedupMap)
    (hfresh : ∀ c ∈ cs, mapGet m (dedupKey (skipEvent c)) = none)
    (hnd : (cs.map (fun c => dedupKey (skipEvent c))).Nodup)
    (hlen : m.length + cs.length ≤ 500) :
    runCircuit (cs.map (fun c => (t, skipEvent c))) m =
      (m ++ cs.map (fun c => (dedupKey (skipEvent c), t)), List.replicate cs.length true) := by
  induction cs generalizing m with
  | nil => simp [runCircuit]
  | cons c cs ih =>
    have hnd' : (∀ x ∈ cs, ¬dedupKey (skipEvent x) = dedupKey (skipEvent c)) ∧
        (cs.map (fun c => dedupKey (skipEvent c))).Nodup := by
      simpa using hnd
    have hstep := handleCircuit_fresh t (skipEvent c) m (isTransition_skipEvent c)
      (hfresh c (List.mem_cons_self c cs)) (by simp at hlen ⊢; omega)
    have hfresh' : ∀ c' ∈ cs, mapGet (m ++ [(dedupKey (skipEvent c), t)])
        (dedupKey (skipEvent c')) = none := by
      intro c' hc'
      exact mapGet_append_none (hfresh c' (List.mem_cons_of_mem c hc'))
        (mapGet_singleton_ne (hnd'.1 c' hc'))
    have ih' := ih (m ++ [(dedupKey (skipEvent c), t)]) hfresh' hnd'.2
      (by simp at hlen ⊢; omega)
    simp only [List.map_cons, runCircuit, hstep, ih']
    simp [List.replicate_succ]

theorem string_append_cancel {a b c : String} (h : a ++ c = b ++ c) : a = b := by
  apply String.ext
  have h2 := congrArg String.data h
  simp only [String.data_append] at h2
  exact List.append_cancel_right h2

theorem cexFillerCli_inj {i j : Nat} (h : cexFillerCli i = cexFillerCli j) : i = j := by
  have hd : List.replicate (i + 1) 'a' = List.replicate (j + 1) 'a' :=
    congrArg String.data h
  have hl := congrArg List.length hd
  simpa using hl

theorem cexKey_inj {i j : Nat}
    (h : dedupKey (skipEvent (cexFillerCli i)) = dedupKey (skipEvent (cexFillerCli j))) :
    i = j := by
  rw [dedupKey_skipEvent, dedupKey_skipEvent] at h
  exact cexFillerCli_inj (string_append_cancel h)

theorem cexKey_ne_main (i : Nat) :
    dedupKey (skipEvent (cexFillerCli i)) ≠ dedupKey (skipEvent "") := by
  intro h
  rw [dedupKey_skipEvent, dedupKey_skipEvent] at h
  have h2 : cexFillerCli i = "" := string_append_cancel h
  have hd : List.replicate (i + 1) 'a' = ("" : String).data := congrArg String.data h2
  simp at hd

theorem mapGet_keyList_none (cs : List Nat) (t : Int) {k : String}
    (h : ∀ i ∈ cs, dedupKey (skipEvent (cexFillerCli i)) ≠ k) :
    mapGet (cs.map (fun i => (dedupKey (skipEvent (cexFillerCli i)), t))) k = none := by
  rw [mapGet_eq_none_iff]
  intro x hx
  obtain ⟨i, hi, rfl⟩ := List.mem_map.mp hx
  simp only [Bool.not_eq_true, beq_eq_false_iff_ne]
  exact h i hi

set_option maxRecDepth 8000 in
theorem cex_flags : (runCircuit cexEvents []).2 = List.replicate 502 true := by
  have h0 : handleCircuit 0 (some (skipEvent "")) [] =
      ([(dedupKey (skipEvent ""), 0)], true) :=
    handleCircuit_fresh 0 _ [] (isTransition_skipEvent "") rfl (by simp)
  have hsplit : cexFillerClis = (List.range 499).map cexFillerCli ++ [cexFillerCli 499] := by
    rw [cexFillerClis, show (500 : Nat) = 499 + 1 from rfl, List.range_succ, List.map_append]
    simp
  have h499 := runCircuit_fresh_skips ((List.range 499).map cexFillerCli) 1
      [(dedupKey (skipEvent ""), 0)]
      (by
        intro c hc
        obtain ⟨i, _, rfl⟩ := List.mem_map.mp hc
        exact mapGet_singleton_ne (cexKey_ne_main i))
      (by
        rw [List.map_map]
        exact (List.nodup_range 499).map (fun _ _ hEq => cexKey_inj hEq))
      (by simp)
  have h500 := handleCircuit_fresh_clear 1 (skipEvent (cexFillerCli 499))
      ((dedupKey (skipEvent ""), 0) ::
        ((List.range 499).map cexFillerCli).map (fun c => (dedupKey (skipEvent c), (1 : Int))))
      (isTransition_skipEvent _)
      (by
        rw [show ((dedupKey (skipEvent ""), 0) ::
            ((List.range 499).map cexFillerCli).map (fun c => (dedupKey (skipEvent c), (1 : Int)))) =
            [(dedupKey (skipEvent ""), 0)] ++
              ((List.range 499).map cexFillerCli).map (fun c => (dedupKey (skipEvent c), (1 : Int)))
          from rfl]
        refine mapGet_append_none (mapGet_singleton_ne (cexKey_ne_main 499)) ?_
        rw [List.map_map]
        refine mapGet_keyList_none (List.range 499) 1 ?_
        intro i hi hEq
        have h1 := cexKey_inj hEq
        have h2 := List.mem_range.mp hi
        omega)
      (by
        simp only [List.length_cons, List.length_map, List.length_range]
        omega)
  have hlast : handleCircuit 2 (some (skipEvent "")) [] =
      ([(dedupKey (skipEvent ""), 2)], true) :=
    handleCircuit_fresh 2 _ [] (isTransition_skipEvent "") rfl (by simp)
  have hA : runCircuit
      (((List.range 499).map cexFillerCli).map (fun c => ((1 : Int), skipEvent c)))
      [(dedupKey (skipEvent ""), 0)] =
      ((dedupKey (skipEvent ""), 0) ::
          ((List.range 499).map cexFillerCli).map (fun c => (dedupKey (skipEvent c), (1 : Int))),
        List.replicate 499 true) := by
    rw [h499]
    simp only [List.singleton_append, List.length_map, List.length_range]
  have hB : runCircuit [((1 : Int), skipEvent (cexFillerCli 499))]
      ((dedupKey (skipEvent ""), 0) ::
        ((List.range 499).map cexFillerCli).map (fun c => (dedupKey (skipEvent c), (1 : Int)))) =
      ([], [true]) :=
    runCircuit_cons_eq 1 (skipEvent (cexFillerCli 499)) [] _ [] [] true [] h500 rfl
  have hC : runCircuit [((2 : Int), skipEvent "")] ([] : DedupMap) =
      ([(dedupKey (skipEvent ""), 2)], [true]) :=
    runCircuit_cons_eq 2 (skipEvent "") [] [] [(dedupKey (skipEvent ""), 2)]
      [(dedupKey (skipEvent ""), 2)] true [] hlast rfl
  have hAB := runCircuit_append_eq _ _ _ _ _ _ _ hA hB
  have hABC := runCircuit_append_eq _ _ _ _ _ _ _ hAB hC
  have hshape : cexEvents = (0, skipEvent "") ::
      ((((List.range 499).map cexFillerCli).map (fun c => ((1 : Int), skipEvent c)) ++
          [((1 : Int), skipEvent (cexFillerCli 499))]) ++ [((2 : Int), skipEvent "")]) := by
    rw [cexEvents, hsplit, List.map_append, List.map_singleton]
  have hall := runCircuit_cons_eq 0 (skipEvent "") _ [] _ _ true _ h0 hABC
  rw [hshape, hall]
  show true :: (List.replicate 499 true ++ [true] ++ [true]) = List.replicate 502 true
  refine List.eq_replicate_iff.mpr ⟨?_, ?_⟩
  · simp only [List.length_cons, List.length_append, List.length_replicate,
      List.length_singleton, List.length_nil]
  · intro b hb
    rcases List.mem_cons.mp hb with rfl | hb2
    · rfl
    · rcases List.mem_append.mp hb2 with h3 | h3
      · rcases List.mem_append.mp h3 with h4 | h4
        · exact (List.mem_replicate.mp h4).2
        · simpa using h4
      · simpa using h3

end CircuitLog

/-- C4 counterexample: on the concrete sequence `cexEvents` every event is
logged — in particular both the first and the last event, which carry the
same dedup key (`skipEvent ""`) and are 2 ms apart, far less than the 3000 ms
dedup window — because the 500 distinct fresh keys in between push the dedup
map past 500 entries, which clears it. The claim that a same-key
non-transition event arriving less than 3000 ms after the previous logged one
never produces a console entry is therefore false. -/
theorem circuit_dedup_window_counterexample :
    (CircuitLog.runCircuit CircuitLog.cexEvents []).2 = List.replicate 502 true ∧
      (CircuitLog.cexEvents.map Prod.snd).head? = some (CircuitLog.skipEvent "") ∧
      (CircuitLog.cexEvents.map Prod.snd).getLast? = some (CircuitLog.skipEvent "") ∧
      CircuitLog.isTransition (CircuitLog.skipEvent "") = false ∧ ((2 : Int) - 0 < 3000) := by
  refine ⟨CircuitLog.cex_flags, ?_, ?_, CircuitLog.isTransition_skipEvent "", by norm_num⟩
  · simp [CircuitLog.cexEvents]
  · rw [show CircuitLog.cexEvents.map Prod.snd =
        (CircuitLog.skipEvent "" :: CircuitLog.cexFillerClis.map CircuitLog.skipEvent) ++
          [CircuitLog.skipEvent ""] from by simp [CircuitLog.cexEvents]]
    exact List.getLast?_concat _

/-- C4 (amended): a non-transition `gateway:circuit` event whose dedup key
is still present in the dedup map with a logged time less than 3000 ms ago
produces no console entry and leaves the map unchanged — provided the map
still holds that entry (the map is cleared whenever it exceeds 500 keys,
which can forget the earlier event); a genuine transition event (both states
normalize and differ) is always logged and never touches the dedup map. -/
theorem circuit_skip_dedup_amended (m : CircuitLog.DedupMap) (e : GatewayCircuitEvent)
    (now t1 : Int) :
    (CircuitLog.isTransition e = false →
      CircuitLog.mapGet m (CircuitLog.dedupKey e) = some t1 →
      now - t1 < 3000 →
      CircuitLog.handleCircuit now (some e) m = (m, false)) ∧
    (CircuitLog.isTransition e = true →
      CircuitLog.handleCircuit now (some e) m = (m, true)) := by
  constructor
  · intro hnt hlast hwin
    simp [CircuitLog.handleCircuit, hnt, hlast, CircuitLog.DEDUP_WINDOW_MS, hwin]
  · intro ht
    simp [CircuitLog.handleCircuit, ht]

theorem circuit_skip_dedup_amended_witness :
    CircuitLog.handleCircuit 100 (some (CircuitLog.skipEvent ""))
        [(CircuitLog.dedupKey (CircuitLog.skipEvent ""), 50)] =
      ([(CircuitLog.dedupKey (CircuitLog.skipEvent ""), 50)], false) ∧
    CircuitLog.handleCircuit 7 (some CircuitLog.transitionEvent) [] = ([], true) :=
  ⟨(circuit_skip_dedup_amended _ _ 100 50).1 (by decide) (by decide) (by decide),
   (circuit_skip_dedup_amended _ _ 7 0).2 (by decide)⟩

/-- C7 counterexample: with every setting at its default except
`preferred_port = 70000` and with `keys = [preferred_port]`,
`validateDesiredForKeys` returns a non-null message (the port bound check),
yet none of the six keys the claim enumerates is violated — so the claimed
"if and only if" is false: the function also checks `preferred_port`,
`log_retention_days` and `provider_base_url_ping_cache_ttl_seconds`. -/
theorem validate_desired_claim_counterexample :
    (validateDesiredForKeys portOutOfRangeSettings [PersistKey.preferred_port]).isSome = true ∧
      claimListedViolation portOutOfRangeSettings [PersistKey.preferred_port] = false := by
  decide

/-- C7 (amended): `validateDesiredForKeys` returns a non-null error message
if and only if some key in the given key list has a non-finite or
out-of-range desired value, where the checked keys and ranges are the
claim's six — `provider_cooldown_seconds` [0, 3600],
`upstream_first_byte_timeout_seconds` [0, 3600],
`upstream_stream_idle_timeout_seconds` [0, 3600],
`upstream_request_timeout_non_streaming_seconds` [0, 86400],
`circuit_breaker_failure_threshold` [1, 50],
`circuit_breaker_open_duration_minutes` [1, 1440] — plus `preferred_port`
[1024, 65535], `log_retention_days` [1, 3650] and
`provider_base_url_ping_cache_ttl_seconds` [1, 3600]; keys not in the list
are never checked. -/
theorem validate_desired_iff_out_of_range (desired : PersistedSettings)
    (keys : List PersistKey) :
    (validateDesiredForKeys desired keys).isSome = outOfRangeViolation desired keys := by
  unfold validateDesiredForKeys outOfRangeViolation claimListedViolation
  repeat' split <;> simp_all

/-- C10: `computeOutputTokensPerSecond` returns a non-null value exactly when
`output_tokens` is non-null, `duration_ms` is a finite strictly positive
number, `ttfb_ms` is non-null and finite, and `duration_ms - ttfb_ms` is
strictly positive; in every other case it returns null, so the division is
only ever by a strictly positive generation time. -/
theorem computeOutputTokensPerSecond_some_iff (p : GatewayRequestEvent) :
    (computeOutputTokensPerSecond p).isSome = true ↔
      (p.output_tokens.isSome = true ∧ p.duration_ms.isFinite = true ∧
        JSNum.lt (.finite 0) p.duration_ms = true ∧
        ∃ t, p.ttfb_ms = some t ∧ t.isFinite = true ∧
          JSNum.lt (.finite 0) (p.duration_ms.sub t) = true) := by
  rcases hout : p.output_tokens with _ | out
  · simp [computeOutputTokensPerSecond, hout]
  · rcases hdur : p.duration_ms with q | _ | _ | _ <;>
      rcases httfb : p.ttfb_ms with _ | t
    case finite.some =>
      rcases t with t' | _ | _ | _ <;>
        simp [computeOutputTokensPerSecond, hout, hdur, httfb, JSNum.isFinite,
          JSNum.le, JSNum.lt, JSNum.sub]
      constructor
      · intro hs
        by_cases h1 : q ≤ 0
        · simp [h1] at hs
        · by_cases h2 : q ≤ t'
          · simp [h1, h2] at hs
          · exact ⟨lt_of_not_le h1, lt_of_not_le h2⟩
      · rintro ⟨hq, ht⟩
        rw [if_neg (not_le.mpr hq), if_neg (not_le.mpr ht)]
        rfl
    all_goals
      simp [computeOutputTokensPerSecond, hout, hdur, httfb, JSNum.isFinite,
        JSNum.le, JSNum.lt, JSNum.sub]

/-- C1 (spec-modelled): for the circuit breaker modelled from the spec,
a reported failure increases `failure_count` by exactly 1; a success or a
manual reset sets it to 0, and nothing else does; and whenever the count
reaches `failure_threshold`, the state becomes OPEN with `open_until`
strictly greater than the current time (the configured open duration being
positive). -/
theorem circuit_failure_count_monotonicity (cfg : Gateway.CBConfig)
    (st : Gateway.CircuitState) (now : Int) (hdur : 0 < cfg.circuit_open_duration) :
    (Gateway.reportOutcome cfg (.failure now) st).failure_count = st.failure_count + 1 ∧
      (Gateway.reportOutcome cfg .success st).failure_count = 0 ∧
      (Gateway.reportOutcome cfg .manualReset st).failure_count = 0 ∧
      (∀ ev, (Gateway.reportOutcome cfg ev st).failure_count = 0 →
        ev = .success ∨ ev = .manualReset) ∧
      (cfg.failure_threshold ≤ (Gateway.reportOutcome cfg (.failure now) st).failure_count →
        (Gateway.reportOutcome cfg (.failure now) st).state = .OPEN ∧
          ∃ u, (Gateway.reportOutcome cfg (.failure now) st).open_until = some u ∧ now < u) := by
  refine ⟨?_, rfl, rfl, ?_, ?_⟩
  · simp only [Gateway.reportOutcome]
    split <;> rfl
  · intro ev h
    cases ev with
    | failure now' =>
      simp only [Gateway.reportOutcome] at h
      split at h <;> simp at h
    | success => exact Or.inl rfl
    | manualReset => exact Or.inr rfl
  · intro h
    have hcount : (Gateway.reportOutcome cfg (.failure now) st).failure_count =
        st.failure_count + 1 := by
      simp only [Gateway.reportOutcome]
      split <;> rfl
    rw [hcount] at h
    refine ⟨?_, now + cfg.circuit_open_duration, ?_, by omega⟩ <;>
      simp [Gateway.reportOutcome, h]

theorem circuit_failure_count_monotonicity_witness :
    (Gateway.reportOutcome ⟨3, 30, 1800⟩ (.failure 0) Gateway.initialCircuit).failure_count =
      Gateway.initialCircuit.failure_count + 1 :=
  (circuit_failure_count_monotonicity ⟨3, 30, 1800⟩ Gateway.initialCircuit 0 (by decide)).1

/-- C2 (spec-modelled): after a successful request with session id `sid`
recorded for provider `pid` at time `t0`, a second request at time
`t1 < t0 + TTL` builds a trial order that places `pid` first — even when
`pid` is not first in the configured sort order — followed by the remaining
sort-order providers; unless `pid` is currently OPEN or in its cooldown
window (not selectable), in which case the trial order is the normal
sort-mode order. -/
theorem session_stickiness (m : Gateway.AffinityMap) (cbOf : Nat → Gateway.CircuitState)
    (sortOrder : List Nat) (cli sid : String) (pid : Nat) (t0 t1 ttl : Int)
    (hwin : t1 < t0 + ttl) :
    (Gateway.selectable t1 (cbOf pid) = true →
      Gateway.buildTrialOrder t1 cbOf
          (Gateway.affinityLookup (Gateway.recordSuccess m t0 cli sid pid ttl) t1 cli sid)
          sortOrder =
        pid :: sortOrder.filter (fun q => q != pid)) ∧
    (Gateway.selectable t1 (cbOf pid) = false →
      Gateway.buildTrialOrder t1 cbOf
          (Gateway.affinityLookup (Gateway.recordSuccess m t0 cli sid pid ttl) t1 cli sid)
          sortOrder = sortOrder) := by
  have hlook : Gateway.affinityLookup (Gateway.recordSuccess m t0 cli sid pid ttl) t1 cli sid =
      some pid := by
    simp [Gateway.affinityLookup, Gateway.recordSuccess, List.find?, hwin]
  constructor
  · intro hsel
    simp [Gateway.buildTrialOrder, hlook, hsel]
  · intro hsel
    simp [Gateway.buildTrialOrder, hlook, hsel]

theorem session_stickiness_witness :
    Gateway.buildTrialOrder 60 (fun _ => Gateway.initialCircuit)
        (Gateway.affinityLookup
          (Gateway.recordSuccess [] 0 "claude" "s" 3 300) 60 "claude" "s")
        [7, 3] = [3, 7] := by
  have h := (session_stickiness [] (fun _ => Gateway.initialCircuit) [7, 3]
    "claude" "s" 3 0 60 300 (by decide)).1 (by decide)
  simpa using h

/-- C3 (spec-modelled): when every provider in the trial order fails, the
request terminates with `AllProvidersUnavailable`, and the failure count of
every attempted provider has been incremented exactly once (providers not
in the order are untouched). -/
theorem exhaustion_terminal (attemptSucceeds : Nat → Bool) (order : List Nat)
    (counts : Nat → Nat) (hfail : ∀ p ∈ order, attemptSucceeds p = false)
    (hnd : order.Nodup) :
    (Gateway.runFailover attemptSucceeds order counts).1 =
        Gateway.RequestOutcome.allProvidersUnavailable ∧
      ∀ p, (Gateway.runFailover attemptSucceeds order counts).2 p =
        (if p ∈ order then counts p + 1 else counts p) := by
  induction order generalizing counts with
  | nil => exact ⟨rfl, fun p => by simp [Gateway.runFailover]⟩
  | cons p rest ih =>
    have hp := hfail p (List.mem_cons_self p rest)
    have hnd' := List.nodup_cons.mp hnd
    have ih' := ih (fun q => if q = p then counts q + 1 else counts q)
      (fun q hq => hfail q (List.mem_cons_of_mem p hq)) hnd'.2
    constructor
    · simp only [Gateway.runFailover, hp, Bool.false_eq_true, if_false]
      exact ih'.1
    · intro q
      simp only [Gateway.runFailover, hp, Bool.false_eq_true, if_false]
      rw [ih'.2 q]
      by_cases hq : q = p
      · subst hq
        simp [hnd'.1]
      · simp [hq, List.mem_cons]

theorem exhaustion_terminal_witness :
    (Gateway.runFailover (fun _ => false) [1, 2] (fun _ => 0)).1 =
        Gateway.RequestOutcome.allProvidersUnavailable ∧
      (Gateway.runFailover (fun _ => false) [1, 2] (fun _ => 0)).2 1 = 1 := by
  have h := exhaustion_terminal (fun _ => false) [1, 2] (fun _ => 0)
    (fun p _ => rfl) (by decide)
  exact ⟨h.1, by simpa using h.2 1⟩
